import Mathlib

set_option maxHeartbeats 1000000

/-!
Shallow embedding of the election-management backend in `src/app.py`.

The Mongo database is modelled as an explicit record of five collections
(lists of records, in insertion order).  `find_one` becomes `List.find?`
(first match in insertion order), `insert_one` appends, and `delete_one`
removes the first matching record.  Request timestamps (`datetime.now()`)
are modelled by an explicit `now : Int` parameter; a sequential request is
one function call on the database state.  Each route handler's distinct
response messages are modelled as constructors of a result type.
-/

/-- A voter record as inserted by `register_voter` in `app.py`. -/
structure Voter where
  name : String
  cnic : String
  dob : String
  age : Int
  voted : Bool
deriving DecidableEq

/-- A candidate record: Mongo assigns the `_id`; `add_candidate` stores name and party. -/
structure Candidate where
  id : String
  name : String
  party : String
deriving DecidableEq

/-- An election record as inserted by `create_election`: the `votes` field is the
tally, a dictionary from candidate id to vote count, modelled as an association
list in insertion order. -/
structure Election where
  id : String
  name : String
  start_date : Int
  end_date : Int
  votes : List (String × Nat)
deriving DecidableEq

/-- A vote record as inserted by `cast_vote` (the source inserts exactly these
three fields, no timestamp). -/
structure Vote where
  voter_id : String
  election_id : String
  candidate_id : String
deriving DecidableEq

/-- A notification record as inserted by `send_notification` and `cast_vote`. -/
structure Notification where
  recipient_id : String
  message : String
  timestamp : Int
deriving DecidableEq

/-- The Mongo database state: the five collections used by the handlers. -/
structure DB where
  voters : List Voter
  candidates : List Candidate
  elections : List Election
  votes : List Vote
  notifications : List Notification
deriving DecidableEq

def emptyDB : DB := ⟨[], [], [], [], []⟩

/-- Outcomes of `register_voter` (each a distinct response message in the source). -/
inductive RegisterVoterResult
  | duplicateCnic
  | underage
  | registered
deriving DecidableEq

/-- Model of `register_voter` from `app.py`: duplicate-cnic check, then age check, then insert. -/
def register_voter (db : DB) (name cnic dob : String) (age : Int) :
    RegisterVoterResult × DB :=
  if (db.voters.find? (fun v => v.cnic == cnic)).isSome then
    (.duplicateCnic, db)
  else if age < 18 then
    (.underage, db)
  else
    (.registered, { db with voters := db.voters ++ [⟨name, cnic, dob, age, false⟩] })

/-- Outcomes of `add_candidate`. -/
inductive AddCandidateResult
  | duplicateCandidate
  | added
deriving DecidableEq

/-- Model of `add_candidate` from `app.py`: duplicate (name, party) check, then insert.
The fresh Mongo `_id` is passed explicitly. -/
def add_candidate (db : DB) (id name party : String) : AddCandidateResult × DB :=
  if (db.candidates.find? (fun c => c.name == name && c.party == party)).isSome then
    (.duplicateCandidate, db)
  else
    (.added, { db with candidates := db.candidates ++ [⟨id, name, party⟩] })

/-- Outcomes of `create_election`. -/
inductive CreateElectionResult
  | invalidSchedule
  | created
deriving DecidableEq

/-- Model of `create_election` from `app.py`: rejects `start_date >= end_date`, otherwise
inserts the election with an empty `votes` tally.  The fresh `_id` is passed
explicitly. -/
def create_election (db : DB) (id name : String) (start_date end_date : Int) :
    CreateElectionResult × DB :=
  if start_date ≥ end_date then
    (.invalidSchedule, db)
  else
    (.created, { db with elections := db.elections ++ [⟨id, name, start_date, end_date, []⟩] })

/-- Mongo `find_one` on the elections collection. -/
def findElection (db : DB) (election_id : String) : Option Election :=
  db.elections.find? (fun e => e.id == election_id)

/-- Mongo `delete_one` on the elections collection: removes the first record with the
given id, leaves the list unchanged when none matches. -/
def deleteOneElection : List Election → String → List Election
  | [], _ => []
  | e :: rest, i => if e.id == i then rest else e :: deleteOneElection rest i

/-- Model of `delete_election` from `app.py`: deletes at most one election record; the
boolean reports whether a record was deleted. -/
def delete_election (db : DB) (election_id : String) : Bool × DB :=
  ((findElection db election_id).isSome,
   { db with elections := deleteOneElection db.elections election_id })

/-- Mongo `find_one` on the votes collection for a (voter, election) pair. -/
def findVote (db : DB) (voter_id election_id : String) : Option Vote :=
  db.votes.find? (fun v => v.voter_id == voter_id && v.election_id == election_id)

/-- Outcomes of `cast_vote` (each a distinct response message in the source). -/
inductive CastVoteResult
  | electionNotFound
  | votingClosed
  | alreadyVoted
  | success
deriving DecidableEq

/-- Model of `cast_vote` from `app.py`: election-existence check, temporal check
(`now < start_date or now > end_date` rejects), duplicate-vote check, then
insertion of the vote record and of a confirmation notification.  Note that the
source never updates the election's `votes` tally. -/
def cast_vote (db : DB) (voter_id election_id candidate_id : String) (now : Int) :
    CastVoteResult × DB :=
  match findElection db election_id with
  | none => (.electionNotFound, db)
  | some election =>
    if now < election.start_date ∨ now > election.end_date then
      (.votingClosed, db)
    else if (findVote db voter_id election_id).isSome then
      (.alreadyVoted, db)
    else
      (.success,
        { db with
          votes := db.votes ++ [⟨voter_id, election_id, candidate_id⟩],
          notifications := db.notifications ++
            [⟨voter_id,
              "Your vote in election " ++ election_id ++ " has been successfully cast.",
              now⟩] })

/-- Mongo `find_one` on the candidates collection by id. -/
def findCandidate (db : DB) (candidate_id : String) : Option Candidate :=
  db.candidates.find? (fun c => c.id == candidate_id)

/-- Python's `max(votes, key=votes.get)` over a dictionary: linear scan keeping
the current best, replacing it only on a strictly greater value, so the first
key attaining the maximum wins. -/
def pyMaxFrom (best : String × Nat) : List (String × Nat) → String × Nat
  | [] => best
  | p :: rest => pyMaxFrom (if p.2 > best.2 then p else best) rest

/-- Python's `votes[k]` on the tally dictionary (first binding of the key). -/
def dictGet (tally : List (String × Nat)) (k : String) : Nat :=
  match tally.find? (fun p => p.1 == k) with
  | some p => p.2
  | none => 0

/-- Outcomes of `get_results`.  `crash` models the unhandled `TypeError` the
source raises at `winner['name']` when the candidate lookup returned `None`. -/
inductive GetResultsOutcome
  | electionNotFound
  | noVotesCast
  | crash
  | report (results : List (String × Nat)) (winner_id winner_name : String)
      (winner_votes : Nat)
deriving DecidableEq

/-- Model of `get_results` from `app.py`: election lookup, empty-tally check, winner by
`max(votes, key=votes.get)`, candidate lookup, and the report
`{results, winner: {candidate_id, name, votes[winner_id]}}`. -/
def get_results (db : DB) (election_id : String) : GetResultsOutcome :=
  match findElection db election_id with
  | none => .electionNotFound
  | some election =>
    match election.votes with
    | [] => .noVotesCast
    | p :: rest =>
      let winner_id := (pyMaxFrom p rest).1
      match findCandidate db winner_id with
      | none => .crash
      | some winner =>
        .report election.votes winner_id winner.name (dictGet election.votes winner_id)

/-- The state-changing operations of the system, for invariant preservation. -/
inductive Op
  | regVoter (name cnic dob : String) (age : Int)
  | addCand (id name party : String)
  | createElec (id name : String) (start_date end_date : Int)
  | deleteElec (id : String)
  | vote (voter_id election_id candidate_id : String) (now : Int)

/-- State transition of one operation (the database it leaves behind). -/
def applyOp (db : DB) : Op → DB
  | .regVoter n c d a => (register_voter db n c d a).2
  | .addCand i n p => (add_candidate db i n p).2
  | .createElec i n s e => (create_election db i n s e).2
  | .deleteElec i => (delete_election db i).2
  | .vote v e c now => (cast_vote db v e c now).2

/-- Number of vote records for a (voter, election) pair. -/
def voteCount (db : DB) (voter_id election_id : String) : Nat :=
  (db.votes.filter (fun x => x.voter_id == voter_id && x.election_id == election_id)).length

/-- The central invariant: at most one vote record per (voter, election) pair. -/
def VoteInv (db : DB) : Prop := ∀ v e, voteCount db v e ≤ 1

/-- Sum of the tally counts of one election record. -/
def tallySum (el : Election) : Nat := (el.votes.map Prod.snd).sum

/-- Sum of the tally of the election with the given id (0 when absent). -/
def electionTallySum (db : DB) (election_id : String) : Nat :=
  match findElection db election_id with
  | none => 0
  | some el => tallySum el

/-- Number of committed vote records for an election. -/
def committedVotes (db : DB) (election_id : String) : Nat :=
  (db.votes.filter (fun v => v.election_id == election_id)).length

/-- Sample state: one open election "e1" with window [0, 10] and empty tally. -/
def dbOpenElection : DB := ⟨[], [], [⟨"e1", "E", 0, 10, []⟩], [], []⟩

/-- Sample state: the open election plus one committed vote by "v1" for "c1". -/
def dbOneVote : DB := ⟨[], [], [⟨"e1", "E", 0, 10, []⟩], [⟨"v1", "e1", "c1"⟩], []⟩

/-- Sample state: election "e1" whose tally names candidate "c1", but no
candidate record "c1" exists. -/
def dbMissingWinner : DB := ⟨[], [], [⟨"e1", "E", 0, 10, [("c1", 1)]⟩], [], []⟩

/-- Sample state: one registered voter with cnic "111". -/
def dbDupVoter : DB := ⟨[⟨"A", "111", "1990-01-01", 30, false⟩], [], [], [], []⟩

/-- Sample state: one candidate record, one election with a two-entry tally. -/
def dbResults : DB :=
  ⟨[], [⟨"c2", "Bob", "P"⟩], [⟨"e1", "E", 0, 10, [("c1", 2), ("c2", 5)]⟩], [], []⟩

/-- Sample state: two elections and a vote record for the first one. -/
def dbTwoElections : DB :=
  ⟨[], [], [⟨"e1", "E", 0, 10, []⟩, ⟨"e2", "F", 0, 10, []⟩], [⟨"v1", "e1", "c1"⟩], []⟩

theorem filter_eq_nil_of_find?_eq_none {α} (p : α → Bool) (l : List α)
    (h : l.find? p = none) : l.filter p = [] :=
  List.filter_eq_nil_iff.mpr (List.find?_eq_none.mp h)

theorem register_voter_votes (db : DB) (n c d : String) (a : Int) :
    (register_voter db n c d a).2.votes = db.votes := by
  unfold register_voter
  split
  · rfl
  · split <;> rfl

theorem add_candidate_votes (db : DB) (i n p : String) :
    (add_candidate db i n p).2.votes = db.votes := by
  unfold add_candidate
  split <;> rfl

theorem create_election_votes (db : DB) (i n : String) (s e : Int) :
    (create_election db i n s e).2.votes = db.votes := by
  unfold create_election
  split <;> rfl

theorem delete_election_votes (db : DB) (i : String) :
    (delete_election db i).2.votes = db.votes := rfl

theorem cast_vote_notFound (db : DB) (v eid c : String) (now : Int)
    (hf : findElection db eid = none) :
    cast_vote db v eid c now = (.electionNotFound, db) := by
  unfold cast_vote
  rw [hf]

theorem cast_vote_closed (db : DB) (v eid c : String) (now : Int) (el : Election)
    (hf : findElection db eid = some el)
    (hcl : now < el.start_date ∨ now > el.end_date) :
    cast_vote db v eid c now = (.votingClosed, db) := by
  unfold cast_vote
  rw [hf]
  exact if_pos hcl

theorem cast_vote_alreadyVoted (db : DB) (v eid c : String) (now : Int) (el : Election)
    (hf : findElection db eid = some el) (h1 : el.start_date ≤ now) (h2 : now ≤ el.end_date)
    (hd : (findVote db v eid).isSome = true) :
    cast_vote db v eid c now = (.alreadyVoted, db) := by
  simp only [cast_vote, hf]
  rw [if_neg (by omega : ¬(now < el.start_date ∨ now > el.end_date)), if_pos hd]

theorem cast_vote_success (db : DB) (v eid c : String) (now : Int) (el : Election)
    (hf : findElection db eid = some el) (h1 : el.start_date ≤ now) (h2 : now ≤ el.end_date)
    (hd : findVote db v eid = none) :
    cast_vote db v eid c now =
      (.success,
        { db with
          votes := db.votes ++ [⟨v, eid, c⟩],
          notifications := db.notifications ++
            [⟨v, "Your vote in election " ++ eid ++ " has been successfully cast.", now⟩] }) := by
  simp only [cast_vote, hf]
  rw [if_neg (by omega : ¬(now < el.start_date ∨ now > el.end_date)),
    if_neg (by simp [hd] : ¬((findVote db v eid).isSome = true))]

theorem cast_vote_dup (db : DB) (v eid c : String) (now : Int)
    (hd : (findVote db v eid).isSome = true) :
    (cast_vote db v eid c now).2 = db ∧ (cast_vote db v eid c now).1 ≠ .success := by
  cases hf : findElection db eid with
  | none => rw [cast_vote_notFound db v eid c now hf]; exact ⟨rfl, by simp⟩
  | some el =>
    by_cases hcl : now < el.start_date ∨ now > el.end_date
    · rw [cast_vote_closed db v eid c now el hf hcl]
      exact ⟨rfl, by simp⟩
    · rw [cast_vote_alreadyVoted db v eid c now el hf (by omega) (by omega) hd]
      exact ⟨rfl, by simp⟩

theorem cast_vote_state (db : DB) (v eid c : String) (now : Int) :
    (cast_vote db v eid c now).2 = db ∨
    (findVote db v eid = none ∧
      (cast_vote db v eid c now).2.votes = db.votes ++ [⟨v, eid, c⟩]) := by
  cases hf : findElection db eid with
  | none => rw [cast_vote_notFound db v eid c now hf]; exact Or.inl rfl
  | some el =>
    by_cases hcl : now < el.start_date ∨ now > el.end_date
    · rw [cast_vote_closed db v eid c now el hf hcl]
      exact Or.inl rfl
    · by_cases hd : (findVote db v eid).isSome = true
      · rw [cast_vote_alreadyVoted db v eid c now el hf (by omega) (by omega) hd]
        exact Or.inl rfl
      · have hdn : findVote db v eid = none := Option.not_isSome_iff_eq_none.mp hd
        rw [cast_vote_success db v eid c now el hf (by omega) (by omega) hdn]
        exact Or.inr ⟨hdn, rfl⟩

theorem voteCount_congr {db db' : DB} (h : db'.votes = db.votes) (v e : String) :
    voteCount db' v e = voteCount db v e := by
  unfold voteCount
  rw [h]

theorem cast_vote_preserves_voteInv (db : DB) (v eid c : String) (now : Int)
    (hinv : VoteInv db) : VoteInv ((cast_vote db v eid c now).2) := by
  rcases cast_vote_state db v eid c now with h | ⟨hnone, h⟩
  · intro v' e'
    rw [voteCount_congr (by rw [h]) v' e']
    exact hinv v' e'
  · intro v' e'
    unfold voteCount
    rw [h, List.filter_append, List.length_append]
    by_cases hp : (v == v' && eid == e') = true
    · simp only [Bool.and_eq_true, beq_iff_eq] at hp
      obtain ⟨rfl, rfl⟩ := hp
      have hnil : db.votes.filter (fun x => x.voter_id == v && x.election_id == eid) = [] :=
        filter_eq_nil_of_find?_eq_none _ _ hnone
      rw [hnil]
      simp [List.filter]
    · have hb : (v == v' && eid == e') = false := by simpa using hp
      have hone : List.filter (fun x => x.voter_id == v' && x.election_id == e')
          [(⟨v, eid, c⟩ : Vote)] = [] := by
        simp [List.filter, hb]
      rw [hone]
      simpa using hinv v' e'

theorem applyOp_preserves_voteInv (db : DB) (op : Op) (hinv : VoteInv db) :
    VoteInv (applyOp db op) := by
  cases op with
  | regVoter n c d a =>
    intro v e
    simp only [applyOp]
    rw [voteCount_congr (register_voter_votes db n c d a) v e]
    exact hinv v e
  | addCand i n p =>
    intro v e
    simp only [applyOp]
    rw [voteCount_congr (add_candidate_votes db i n p) v e]
    exact hinv v e
  | createElec i n s ed =>
    intro v e
    simp only [applyOp]
    rw [voteCount_congr (create_election_votes db i n s ed) v e]
    exact hinv v e
  | deleteElec i =>
    intro v e
    simp only [applyOp]
    rw [voteCount_congr (delete_election_votes db i) v e]
    exact hinv v e
  | vote v' e' c now => exact cast_vote_preserves_voteInv db v' e' c now hinv

theorem pyMaxFrom_mem (b : String × Nat) (l : List (String × Nat)) :
    pyMaxFrom b l ∈ b :: l := by
  induction l generalizing b with
  | nil => simp [pyMaxFrom]
  | cons p rest ih =>
    rw [pyMaxFrom]
    have h := ih (if p.2 > b.2 then p else b)
    rcases List.mem_cons.mp h with h1 | h1
    · rw [h1]
      split
      · exact List.mem_cons_of_mem _ (List.mem_cons_self _ _)
      · exact List.mem_cons_self _ _
    · exact List.mem_cons_of_mem _ (List.mem_cons_of_mem _ h1)

theorem le_pyMaxFrom (b : String × Nat) (l : List (String × Nat)) :
    b.2 ≤ (pyMaxFrom b l).2 ∧ ∀ q ∈ l, q.2 ≤ (pyMaxFrom b l).2 := by
  induction l generalizing b with
  | nil => exact ⟨le_refl _, by simp⟩
  | cons p rest ih =>
    rw [pyMaxFrom]
    have h := ih (if p.2 > b.2 then p else b)
    constructor
    · refine le_trans ?_ h.1
      split <;> omega
    · intro q hq
      rcases List.mem_cons.mp hq with rfl | hq'
      · refine le_trans ?_ h.1
        split <;> omega
      · exact h.2 q hq'

theorem dictGet_of_mem_nodup (tally : List (String × Nat)) (k : String) (v : Nat)
    (hnd : (tally.map Prod.fst).Nodup) (hmem : (k, v) ∈ tally) :
    dictGet tally k = v := by
  induction tally with
  | nil => simp at hmem
  | cons p rest ih =>
    rcases List.mem_cons.mp hmem with h | h
    · rw [← h]
      simp [dictGet, List.find?]
    · have hk : k ∈ rest.map Prod.fst := by
        have := List.mem_map_of_mem Prod.fst h
        simpa using this
      have hp : (p.1 == k) = false := by
        have hne : p.1 ≠ k := by
          intro he
          have hnotin := (List.nodup_cons.mp hnd).1
          rw [he] at hnotin
          exact hnotin hk
        simpa using hne
      have hstep : dictGet (p :: rest) k = dictGet rest k := by
        simp [dictGet, List.find?, hp]
      rw [hstep]
      exact ih (List.nodup_cons.mp hnd).2 h

theorem mem_deleteOneElection {l : List Election} {i : String} {el : Election}
    (hmem : el ∈ l) (hne : el.id ≠ i) : el ∈ deleteOneElection l i := by
  induction l with
  | nil => simp at hmem
  | cons e rest ih =>
    rw [deleteOneElection]
    split
    case isTrue h =>
      rcases List.mem_cons.mp hmem with rfl | hm
      · exact absurd (by simpa using h) hne
      · exact hm
    case isFalse h =>
      rcases List.mem_cons.mp hmem with rfl | hm
      · exact List.mem_cons_self _ _
      · exact List.mem_cons_of_mem _ (ih hm)

theorem deleteOneElection_subset {l : List Election} {i : String} {el : Election}
    (hmem : el ∈ deleteOneElection l i) : el ∈ l := by
  induction l with
  | nil => simp [deleteOneElection] at hmem
  | cons e rest ih =>
    rw [deleteOneElection] at hmem
    split at hmem
    · exact List.mem_cons_of_mem _ hmem
    · rcases List.mem_cons.mp hmem with rfl | hm
      · exact List.mem_cons_self _ _
      · exact List.mem_cons_of_mem _ (ih hm)

/-- C1: a successful cast_vote inserts the Vote record but leaves the election's
tally unchanged (still empty), contrary to the claimed atomic
insert-and-increment commit: after creating election "e1" with window [0, 10]
and casting at time 5, the call succeeds and the vote record is stored, yet the
stored election still has an empty tally, so tally["c1"] was not set to 1. -/
theorem cast_vote_leaves_tally_unchanged :
    (cast_vote ((create_election emptyDB "e1" "E" 0 10).2) "v1" "e1" "c1" 5).1 = .success ∧
    (cast_vote ((create_election emptyDB "e1" "E" 0 10).2) "v1" "e1" "c1" 5).2.votes =
      [⟨"v1", "e1", "c1"⟩] ∧
    findElection ((cast_vote ((create_election emptyDB "e1" "E" 0 10).2) "v1" "e1" "c1" 5).2)
      "e1" = some ⟨"e1", "E", 0, 10, []⟩ ∧
    electionTallySum ((cast_vote ((create_election emptyDB "e1" "E" 0 10).2) "v1" "e1" "c1" 5).2)
      "e1" = 0 := by
  decide

/-- C2: the conservation law fails after one committed vote: in the state
reached by creating election "e1" (window [0, 10]) and successfully casting one
vote at time 5, the sum of the election's tally is 0 while the number of
committed vote records for "e1" is 1. -/
theorem conservation_violated_after_one_vote :
    (cast_vote ((create_election emptyDB "e1" "E" 0 10).2) "v1" "e1" "c1" 5).1 = .success ∧
    electionTallySum ((cast_vote ((create_election emptyDB "e1" "E" 0 10).2) "v1" "e1" "c1" 5).2)
      "e1" = 0 ∧
    committedVotes ((cast_vote ((create_election emptyDB "e1" "E" 0 10).2) "v1" "e1" "c1" 5).2)
      "e1" = 1 := by
  decide

/-- C3 counterexample: a cast_vote attempt for a pair that already has a Vote
record need not fail with AlreadyVoted: create election "e1" with window
[0, 10], cast successfully at time 5, then cast the same pair again at time 20;
the pair has a Vote record but the second attempt fails with VotingClosed. -/
theorem duplicate_pair_can_fail_votingClosed :
    (findVote ((cast_vote ((create_election emptyDB "e1" "E" 0 10).2) "v1" "e1" "c1" 5).2)
      "v1" "e1").isSome = true ∧
    (cast_vote ((cast_vote ((create_election emptyDB "e1" "E" 0 10).2) "v1" "e1" "c1" 5).2)
      "v1" "e1" "c1" 20).1 = .votingClosed ∧
    CastVoteResult.votingClosed ≠ CastVoteResult.alreadyVoted := by
  decide

/-- C3 (amended): every operation preserves the at-most-one-vote-per-(voter,
election) invariant; a cast_vote attempt for a pair that already has a Vote
record never succeeds and leaves the database unchanged, and it fails with
AlreadyVoted whenever the election exists and the time is within its window. -/
theorem vote_uniqueness_invariant_preserved (db : DB) :
    (∀ op : Op, VoteInv db → VoteInv (applyOp db op)) ∧
    (∀ v eid c now, (findVote db v eid).isSome = true →
      (cast_vote db v eid c now).2 = db ∧ (cast_vote db v eid c now).1 ≠ .success) ∧
    (∀ v eid c now el, findElection db eid = some el → el.start_date ≤ now →
      now ≤ el.end_date → (findVote db v eid).isSome = true →
      (cast_vote db v eid c now).1 = .alreadyVoted) :=
  ⟨fun op hinv => applyOp_preserves_voteInv db op hinv,
   fun v eid c now hd => cast_vote_dup db v eid c now hd,
   fun v eid c now el hf h1 h2 hd => by
     rw [cast_vote_alreadyVoted db v eid c now el hf h1 h2 hd]⟩

theorem vote_uniqueness_invariant_preserved_witness :
    VoteInv dbOneVote ∧
    VoteInv (applyOp dbOneVote (.vote "v1" "e1" "c1" 5)) ∧
    (findVote dbOneVote "v1" "e1").isSome = true ∧
    (cast_vote dbOneVote "v1" "e1" "c1" 5).2 = dbOneVote ∧
    (cast_vote dbOneVote "v1" "e1" "c1" 5).1 = .alreadyVoted := by
  have hinv : VoteInv dbOneVote := fun v e =>
    le_trans (List.length_filter_le _ _) (by decide)
  exact ⟨hinv,
    (vote_uniqueness_invariant_preserved dbOneVote).1 _ hinv,
    by decide,
    ((vote_uniqueness_invariant_preserved dbOneVote).2.1 "v1" "e1" "c1" 5 (by decide)).1,
    (vote_uniqueness_invariant_preserved dbOneVote).2.2 "v1" "e1" "c1" 5
      ⟨"e1", "E", 0, 10, []⟩ (by decide) (by decide) (by decide) (by decide)⟩

/-- C4: cast_vote runs its checks in the strict order election-existence (else
ElectionNotFound), temporal eligibility with the inclusive window (else
VotingClosed, regardless of any duplicate), then duplicate-vote (else
AlreadyVoted), short-circuiting on the first failure, and the three failure
outcomes are pairwise distinct. -/
theorem cast_vote_check_order (db : DB) (v eid c : String) (now : Int) :
    (findElection db eid = none → cast_vote db v eid c now = (.electionNotFound, db)) ∧
    (∀ el, findElection db eid = some el → (now < el.start_date ∨ now > el.end_date) →
      cast_vote db v eid c now = (.votingClosed, db)) ∧
    (∀ el, findElection db eid = some el → el.start_date ≤ now → now ≤ el.end_date →
      (findVote db v eid).isSome = true → cast_vote db v eid c now = (.alreadyVoted, db)) ∧
    CastVoteResult.electionNotFound ≠ CastVoteResult.votingClosed ∧
    CastVoteResult.electionNotFound ≠ CastVoteResult.alreadyVoted ∧
    CastVoteResult.votingClosed ≠ CastVoteResult.alreadyVoted :=
  ⟨fun hf => cast_vote_notFound db v eid c now hf,
   fun el hf hcl => cast_vote_closed db v eid c now el hf hcl,
   fun el hf h1 h2 hd => cast_vote_alreadyVoted db v eid c now el hf h1 h2 hd,
   by decide, by decide, by decide⟩

theorem cast_vote_check_order_witness :
    findElection emptyDB "e1" = none ∧
    cast_vote emptyDB "v1" "e1" "c1" 5 = (.electionNotFound, emptyDB) ∧
    findElection dbOpenElection "e1" = some ⟨"e1", "E", 0, 10, []⟩ ∧
    cast_vote dbOpenElection "v1" "e1" "c1" 20 = (.votingClosed, dbOpenElection) ∧
    (findVote dbOneVote "v1" "e1").isSome = true ∧
    cast_vote dbOneVote "v1" "e1" "c1" 5 = (.alreadyVoted, dbOneVote) :=
  ⟨by decide,
   (cast_vote_check_order emptyDB "v1" "e1" "c1" 5).1 (by decide),
   by decide,
   (cast_vote_check_order dbOpenElection "v1" "e1" "c1" 20).2.1
     ⟨"e1", "E", 0, 10, []⟩ (by decide) (by decide),
   by decide,
   (cast_vote_check_order dbOneVote "v1" "e1" "c1" 5).2.2.1
     ⟨"e1", "E", 0, 10, []⟩ (by decide) (by decide) (by decide) (by decide)⟩

/-- C5: create_election fails with InvalidSchedule exactly when startTime ≥
endTime, and whenever startTime < endTime it succeeds, appending an election
record whose tally is empty and changing nothing else. -/
theorem create_election_schedule_spec (db : DB) (i n : String) (s e : Int) :
    (s ≥ e → create_election db i n s e = (.invalidSchedule, db)) ∧
    (s < e → create_election db i n s e =
      (.created, { db with elections := db.elections ++ [⟨i, n, s, e, []⟩] })) := by
  constructor
  · intro h
    unfold create_election
    rw [if_pos h]
  · intro h
    unfold create_election
    rw [if_neg (not_le.mpr h)]

theorem create_election_schedule_spec_witness :
    ((5 : Int) ≥ 3) ∧
    create_election emptyDB "e1" "E" 5 3 = (.invalidSchedule, emptyDB) ∧
    ((0 : Int) < 10) ∧
    create_election emptyDB "e2" "E" 0 10 =
      (.created, { emptyDB with elections := emptyDB.elections ++ [⟨"e2", "E", 0, 10, []⟩] }) :=
  ⟨by decide,
   (create_election_schedule_spec emptyDB "e1" "E" 5 3).1 (by decide),
   by decide,
   (create_election_schedule_spec emptyDB "e2" "E" 0 10).2 (by decide)⟩

/-- C6 counterexample: with election "e1" present and a nonempty tally naming
candidate "c1", but no candidate record "c1", get_results neither fails with one
of the two listed errors nor returns a winner report: it crashes (the unhandled
subscript of None at `winner['name']`). -/
theorem get_results_nonempty_tally_no_report :
    findElection dbMissingWinner "e1" = some ⟨"e1", "E", 0, 10, [("c1", 1)]⟩ ∧
    get_results dbMissingWinner "e1" = .crash := by
  decide

/-- C6 (amended): get_results fails with ElectionNotFound when the election does
not exist, fails with NoVotesCast when its tally is empty, and otherwise --
provided the winning candidateId has a matching Candidate record (the tally
being a dictionary, its keys are distinct) -- returns the full tally together
with a winner whose reported count equals the maximum value in the tally. -/
theorem get_results_spec (db : DB) (eid : String) :
    (findElection db eid = none → get_results db eid = .electionNotFound) ∧
    (∀ el, findElection db eid = some el → el.votes = [] →
      get_results db eid = .noVotesCast) ∧
    (∀ el p rest, findElection db eid = some el → el.votes = p :: rest →
      (el.votes.map Prod.fst).Nodup →
      ∀ cand, findCandidate db (pyMaxFrom p rest).1 = some cand →
        get_results db eid =
          .report el.votes (pyMaxFrom p rest).1 cand.name (pyMaxFrom p rest).2 ∧
        (pyMaxFrom p rest).2 ∈ el.votes.map Prod.snd ∧
        ∀ x ∈ el.votes.map Prod.snd, x ≤ (pyMaxFrom p rest).2) := by
  refine ⟨?_, ?_, ?_⟩
  · intro hf
    simp only [get_results, hf]
  · intro el hf hv
    simp only [get_results, hf, hv]
  · intro el p rest hf hv hnd cand hc
    have hmem : ((pyMaxFrom p rest).1, (pyMaxFrom p rest).2) ∈ el.votes := by
      rw [hv]
      simpa using pyMaxFrom_mem p rest
    refine ⟨?_, ?_, ?_⟩
    · simp only [get_results, hf, hv, hc]
      have hget : dictGet el.votes (pyMaxFrom p rest).1 = (pyMaxFrom p rest).2 :=
        dictGet_of_mem_nodup el.votes _ _ hnd hmem
      rw [hv] at hget
      rw [hget, ← hv]
    · have := List.mem_map_of_mem Prod.snd hmem
      simpa using this
    · intro x hx
      rcases List.mem_map.mp hx with ⟨q, hq, rfl⟩
      rw [hv] at hq
      rcases List.mem_cons.mp hq with rfl | hq'
      · exact (le_pyMaxFrom q rest).1
      · exact (le_pyMaxFrom p rest).2 q hq'

theorem get_results_spec_witness :
    findElection dbResults "e1" = some ⟨"e1", "E", 0, 10, [("c1", 2), ("c2", 5)]⟩ ∧
    findCandidate dbResults "c2" = some ⟨"c2", "Bob", "P"⟩ ∧
    get_results dbResults "e1" = .report [("c1", 2), ("c2", 5)] "c2" "Bob" 5 ∧
    (5 : Nat) ∈ ([("c1", 2), ("c2", 5)] : List (String × Nat)).map Prod.snd ∧
    ∀ x ∈ ([("c1", 2), ("c2", 5)] : List (String × Nat)).map Prod.snd, x ≤ 5 := by
  have h := (get_results_spec dbResults "e1").2.2
    ⟨"e1", "E", 0, 10, [("c1", 2), ("c2", 5)]⟩ ("c1", 2) [("c2", 5)]
    (by decide) (by decide) (by decide) ⟨"c2", "Bob", "P"⟩ (by decide)
  exact ⟨by decide, by decide, h.1, by decide, by decide⟩

/-- C7: when the winning candidateId of a nonempty tally has no matching
Candidate record, get_results does not report a distinct WinnerCandidateMissing
error: it reaches `winner['name']` with `winner = None` and raises an unhandled
TypeError, modelled as the crash outcome. -/
theorem get_results_missing_winner_crashes :
    findCandidate dbMissingWinner "c1" = none ∧
    get_results dbMissingWinner "e1" = .crash ∧
    GetResultsOutcome.crash ≠ GetResultsOutcome.electionNotFound ∧
    GetResultsOutcome.crash ≠ GetResultsOutcome.noVotesCast := by
  decide

/-- C8 counterexample: register_voter with an already-registered cnic and
age 16 fails with DuplicateCnic, not Underage: the duplicate-cnic check runs
before the age check. -/
theorem underage_duplicate_fails_duplicateCnic :
    ((16 : Int) < 18) ∧
    register_voter dbDupVoter "B" "111" "2008-01-01" 16 = (.duplicateCnic, dbDupVoter) ∧
    RegisterVoterResult.duplicateCnic ≠ RegisterVoterResult.underage := by
  decide

/-- C8 (amended): register_voter fails with Underage whenever age < 18 and no
voter with the given cnic is already registered, and on every validation
failure (DuplicateCnic or Underage) the database is unchanged. -/
theorem register_voter_underage_spec (db : DB) (n c d : String) (a : Int) :
    (db.voters.find? (fun v => v.cnic == c) = none → a < 18 →
      register_voter db n c d a = (.underage, db)) ∧
    ((register_voter db n c d a).1 ≠ .registered → (register_voter db n c d a).2 = db) := by
  constructor
  · intro hf ha
    unfold register_voter
    rw [hf]
    simp [ha]
  · unfold register_voter
    split
    · intro _
      rfl
    · split
      · intro _
        rfl
      · intro h
        exact absurd rfl h

theorem register_voter_underage_spec_witness :
    emptyDB.voters.find? (fun v => v.cnic == "222") = none ∧
    ((16 : Int) < 18) ∧
    register_voter emptyDB "B" "222" "2008-01-01" 16 = (.underage, emptyDB) ∧
    (register_voter dbDupVoter "B" "111" "2008-01-01" 16).1 ≠ .registered ∧
    (register_voter dbDupVoter "B" "111" "2008-01-01" 16).2 = dbDupVoter :=
  ⟨by decide, by decide,
   (register_voter_underage_spec emptyDB "B" "222" "2008-01-01" 16).1 (by decide) (by decide),
   by decide,
   (register_voter_underage_spec dbDupVoter "B" "111" "2008-01-01" 16).2 (by decide)⟩

/-- C9: cast_vote performs no candidate-existence check: for any candidateId
whatsoever (no hypothesis about the candidates collection), an attempt that
passes the election-existence, temporal, and duplicate-vote checks succeeds and
commits the vote record. -/
theorem cast_vote_ignores_candidate_registry (db : DB) (v eid c : String) (now : Int)
    (el : Election) (hf : findElection db eid = some el) (h1 : el.start_date ≤ now)
    (h2 : now ≤ el.end_date) (hd : findVote db v eid = none) :
    (cast_vote db v eid c now).1 = .success ∧
    (⟨v, eid, c⟩ : Vote) ∈ (cast_vote db v eid c now).2.votes := by
  rw [cast_vote_success db v eid c now el hf h1 h2 hd]
  exact ⟨rfl, by simp⟩

theorem cast_vote_ignores_candidate_registry_witness :
    findCandidate dbOpenElection "ghost" = none ∧
    findElection dbOpenElection "e1" = some ⟨"e1", "E", 0, 10, []⟩ ∧
    findVote dbOpenElection "v1" "e1" = none ∧
    (cast_vote dbOpenElection "v1" "e1" "ghost" 5).1 = .success ∧
    (⟨"v1", "e1", "ghost"⟩ : Vote) ∈ (cast_vote dbOpenElection "v1" "e1" "ghost" 5).2.votes :=
  ⟨by decide, by decide, by decide,
   (cast_vote_ignores_candidate_registry dbOpenElection "v1" "e1" "ghost" 5
     ⟨"e1", "E", 0, 10, []⟩ (by decide) (by decide) (by decide) (by decide)).1,
   (cast_vote_ignores_candidate_registry dbOpenElection "v1" "e1" "ghost" 5
     ⟨"e1", "E", 0, 10, []⟩ (by decide) (by decide) (by decide) (by decide)).2⟩

/-- C10: delete_election touches only the elections collection: voters,
candidates, votes (including vote records whose election_id matches the deleted
election) and notifications are unchanged, every election with a different id
is kept, and no election record is added -- whether or not the election
existed. -/
theorem delete_election_frame (db : DB) (eid : String) :
    (delete_election db eid).2.voters = db.voters ∧
    (delete_election db eid).2.candidates = db.candidates ∧
    (delete_election db eid).2.votes = db.votes ∧
    (delete_election db eid).2.notifications = db.notifications ∧
    (∀ el, el ∈ db.elections → el.id ≠ eid → el ∈ (delete_election db eid).2.elections) ∧
    (∀ el, el ∈ (delete_election db eid).2.elections → el ∈ db.elections) :=
  ⟨rfl, rfl, rfl, rfl,
   fun _ hmem hne => mem_deleteOneElection hmem hne,
   fun _ hmem => deleteOneElection_subset hmem⟩

theorem delete_election_frame_witness :
    (delete_election dbTwoElections "e1").2.votes = dbTwoElections.votes ∧
    (⟨"e2", "F", 0, 10, []⟩ : Election) ∈ dbTwoElections.elections ∧
    (⟨"e2", "F", 0, 10, []⟩ : Election).id ≠ "e1" ∧
    (⟨"e2", "F", 0, 10, []⟩ : Election) ∈ (delete_election dbTwoElections "e1").2.elections :=
  ⟨(delete_election_frame dbTwoElections "e1").2.2.1,
   by decide, by decide,
   (delete_election_frame dbTwoElections "e1").2.2.2.2.1 _ (by decide) (by decide)⟩
